import Mathlib

/-!
UCloud VPC resource handlers.

A shallow embedding of `ucloud/resource_ucloud_vpc.go`: the diff validation
rule `diffSupressVPCNetworkUpdate`, the four handlers
`resourceUCloudVPCCreate`, `resourceUCloudVPCRead`, `resourceUCloudVPCUpdate`,
`resourceUCloudVPCDelete`, and the poller configuration `vpcWaitForState`.

The remote service is a parameter: a record of response functions over an
abstract remote state. Every handler returns, next to its error value and the
resource data it leaves behind, the list of remote calls it issued, in order.
-/

namespace UCloud

/-! ## Error values -/

/-- Go error values. `notFound` is the provider's not-found error, `remote` is any
other error value produced by the SDK, the two `errorf` constructors are the
values built by `fmt.Errorf` (format string, string arguments, and the error
argument when there is one), the three `wait` constructors are the poller's
`TimeoutError`, `NotFoundError` and `UnexpectedStateError`, and the two `multierror`
constructors are `multierror.Append(nil, this)` and `multierror.Append(acc, this)`. -/
inductive Error where
  | notFound (msg : String)
  | remote (msg : String)
  | errorf (format : String) (args : List String)
  | errorfWrap (format : String) (args : List String) (cause : Error)
  | waitTimeout (lastState : String)
  | waitNotFound (retries : Nat)
  | waitUnexpectedState (state : String)
  | multierrorOne (this : Error)
  | multierror (acc : Error) (this : Error)
deriving DecidableEq, Repr

/-- Whether the error is the provider's not-found error. -/
def Error.isNotFound : Error → Bool
  | Error.notFound _ => true
  | _ => false

/-- Modelled from the spec: the state name `statusPending`, a constant declared
outside this file. -/
def statusPending : String := "pending"

/-- Modelled from the spec: the state name `statusInitialized`, a constant declared
outside this file. -/
def statusInitialized : String := "initialized"

end UCloud

/-! ## The `schema` package of the plugin framework -/

namespace schema

/-- The framework's `schema.Set`: a map `m` from hash code to member, held as an
association list of (code, member) entries. -/
structure Set where
  m : List (String × String)
deriving DecidableEq, Repr

/-- Whether the map has an entry under the code `k`. -/
def Set.hasKey (s : Set) (k : String) : Bool :=
  s.m.any (fun e => e.1 == k)

/-- The members of the set: the values of the map. -/
def Set.members (s : Set) : List String :=
  s.m.map Prod.snd

/-- Method `Set.Len`: the number of entries. -/
def Set.Len (s : Set) : Nat :=
  s.m.length

/-- Method `Set.Difference`: the entries of `s` whose code is not a code of `other`. -/
def Set.Difference (s other : Set) : Set :=
  ⟨s.m.filter (fun e => !other.hasKey e.1)⟩

/-- Method `Set.Equal`: deep equality of the two maps, that is, the same entries
(codes and members). -/
def Set.Equal (s other : Set) : Bool :=
  s.m.all (fun e => other.m.contains e) && other.m.all (fun e => s.m.contains e)

/-- Lexicographic "less than" on character sequences, by code point. -/
def lessChars : List Char → List Char → Bool
  | [], [] => false
  | [], _ :: _ => true
  | _ :: _, [] => false
  | a :: as, b :: bs =>
    if a.toNat < b.toNat then true
    else if b.toNat < a.toNat then false
    else lessChars as bs

/-- Go's `<` on strings (`sort.StringSlice` sorts the codes with it). -/
def stringLess (a b : String) : Bool := lessChars a.data b.data

/-- Method `Set.List`: the members, in the order of their sorted codes. -/
def Set.List (s : Set) : List String :=
  (s.m.insertionSort (fun a b => stringLess b.1 a.1 = false)).map Prod.snd

/-- A value handed to `ResourceData.Set`. -/
inductive FieldValue where
  | str (v : String)
  | strs (v : List String)
  | maps (v : List (List (String × String)))
deriving DecidableEq, Repr

/-- The part of `schema.ResourceData` the VPC handlers touch: the identifier, the
new-resource flag, the string attributes the configuration gives, the `Default`
values of the schema, the old and new value of `cidr_blocks`, the partial-state bookkeeping, and the attributes written
with `Set` (latest first). -/
structure ResourceData where
  id : String
  isNew : Bool
  attrs : List (String × String)
  defaults : List (String × String)
  cidrOld : Set
  cidrNew : Set
  partialMode : Bool
  partialKeys : List String
  setWriter : List (String × FieldValue)
deriving DecidableEq, Repr

namespace ResourceData

/-- Method `d.Id()`. -/
def Id (d : ResourceData) : String := d.id

/-- Method `d.SetId(v)`. -/
def SetId (d : ResourceData) (v : String) : ResourceData := { d with id := v }

/-- Method `d.IsNewResource()`. -/
def IsNewResource (d : ResourceData) : Bool := d.isNew

/-- Method `d.Get(key)` for a string attribute: its configured value, else the
`Default` of the schema, else the zero value. -/
def Get (d : ResourceData) (key : String) : String :=
  match d.attrs.lookup key with
  | some v => v
  | none => (d.defaults.lookup key).getD ""

/-- Method `d.GetOk(key)` for a string attribute: the value, and whether it is set to a
non-zero value. -/
def GetOk (d : ResourceData) (key : String) : String × Bool :=
  (d.Get key, d.Get key != "")

/-- Method `d.Get("cidr_blocks")`. -/
def GetCidrBlocks (d : ResourceData) : Set := d.cidrNew

/-- Method `d.GetChange("cidr_blocks")`: the old and the new value. -/
def GetChange (d : ResourceData) : Set × Set := (d.cidrOld, d.cidrNew)

/-- Method `d.HasChange("cidr_blocks")`: the old and new sets are not `Equal`. -/
def HasChange (d : ResourceData) : Bool := !(d.GetChange.1.Equal d.GetChange.2)

/-- Method `d.Partial(b)`: sets the mode; turning it off clears the partial keys. -/
def Partial (d : ResourceData) (b : Bool) : ResourceData :=
  { d with partialMode := b, partialKeys := if b then d.partialKeys else [] }

/-- Method `d.SetPartial(key)`. -/
def SetPartial (d : ResourceData) (key : String) : ResourceData :=
  { d with partialKeys := key :: d.partialKeys }

/-- Method `d.Set(key, value)`: records the value; the error result is always nil for the
well-typed values the handlers pass. -/
def Set (d : ResourceData) (key : String) (value : FieldValue) : ResourceData × Option UCloud.Error :=
  ({ d with setWriter := (key, value) :: d.setWriter }, none)

end ResourceData

end schema

/-! ## The `resource` package of the plugin framework -/

namespace time

/-- One second, in nanoseconds. -/
def Second : Nat := 1000000000

/-- One minute, in nanoseconds. -/
def Minute : Nat := 60 * Second

end time

namespace resource

open UCloud (Error)

/-- Function `resource.PrefixedUniqueId(prefix)`: the prefix followed by a time stamp and a
counter; `stamp` is that rendered suffix, supplied by the environment. -/
def PrefixedUniqueId (pre stamp : String) : String := pre ++ stamp

/-- Type `resource.StateChangeConf` over a world `ω` and result values `ρ`. The refresh
function returns the result (nil is `none`), the state name and the error. -/
structure StateChangeConf (ω ρ : Type) where
  Pending : List String
  Target : List String
  Timeout : Nat
  Delay : Nat
  MinTimeout : Nat
  NotFoundChecks : Nat
  Refresh : ω → (Option ρ × String × Option Error) × ω

/-- The refresh loop of `WaitForState`. `fuel` is the number of refreshes whose
result arrives before the timeout; `notfoundTick` counts consecutive nil results.
`ContinuousTargetOccurence` has its default 1. -/
def StateChangeConf.waitLoop {ω ρ : Type} (conf : StateChangeConf ω ρ) (checks : Nat) :
    Nat → Nat → String → ω → (Option ρ × Option Error) × ω
  | 0, _, lastState, w => ((none, some (Error.waitTimeout lastState)), w)
  | fuel + 1, notfoundTick, _, w =>
    match conf.Refresh w with
    | ((res, _, some err), w1) => ((res, some err), w1)
    | ((none, currentState, none), w1) =>
      if conf.Target.length = 0 then ((none, none), w1)
      else if notfoundTick + 1 > checks then ((none, some (Error.waitNotFound (notfoundTick + 1))), w1)
      else conf.waitLoop checks fuel (notfoundTick + 1) currentState w1
    | ((some v, currentState, none), w1) =>
      if conf.Target.contains currentState then ((some v, none), w1)
      else if conf.Pending.contains currentState then conf.waitLoop checks fuel 0 currentState w1
      else if conf.Pending.length > 0 then ((some v, some (Error.waitUnexpectedState currentState)), w1)
      else conf.waitLoop checks fuel 0 currentState w1

/-- Method `conf.WaitForState()`: the not-found limit defaults to 20, then the refresh loop
runs until it reports, or until the timeout (`fuel` refreshes) is used up. -/
def StateChangeConf.WaitForState {ω ρ : Type} (conf : StateChangeConf ω ρ) (fuel : Nat) (w : ω) :
    (Option ρ × Option Error) × ω :=
  conf.waitLoop (if conf.NotFoundChecks = 0 then 20 else conf.NotFoundChecks) fuel 0 "" w

/-- Type `resource.RetryError`. -/
structure RetryError where
  Err : Error
  Retryable : Bool
deriving DecidableEq, Repr

/-- Function `resource.RetryableError(err)`. -/
def RetryableError (err : Error) : RetryError := { Err := err, Retryable := true }

/-- Function `resource.NonRetryableError(err)`. -/
def NonRetryableError (err : Error) : RetryError := { Err := err, Retryable := false }

/-- The poller `resource.Retry` builds around `f`; the variable `resultErr` that the
refresh closure assigns is the second component of the world. -/
def retryConf {ω : Type} (timeout : Nat) (f : ω → Option RetryError × ω) :
    StateChangeConf (ω × Option Error) Nat :=
  { Pending := ["retryableerror"]
    Target := ["success"]
    Timeout := timeout
    Delay := 0
    MinTimeout := 500 * 1000000
    NotFoundChecks := 0
    Refresh := fun st =>
      match f st.1 with
      | (none, w1) => ((some 42, "success", none), (w1, none))
      | (some rerr, w1) =>
        if rerr.Retryable then ((some 42, "retryableerror", none), (w1, some rerr.Err))
        else ((none, "quit", some rerr.Err), (w1, some rerr.Err)) }

/-- Function `resource.Retry(timeout, f)`: runs the poller and returns `resultErr`, or the
poller's own error when `resultErr` was never assigned. `fuel` is the number of
attempts whose result arrives before the timeout. -/
def Retry {ω : Type} (timeout : Nat) (f : ω → Option RetryError × ω) (fuel : Nat) (w : ω) :
    Option Error × ω :=
  match (retryConf timeout f).WaitForState fuel (w, none) with
  | ((_, waitErr), (w1, resultErr)) =>
    match resultErr with
    | none => (waitErr, w1)
    | some e => (some e, w1)

end resource

namespace UCloud

open schema (ResourceData FieldValue)

/-! ## SDK values and the remote service -/

/-- SDK type `vpc.VPCNetworkInfo`, the field read here. -/
structure VPCNetworkInfo where
  Network : String
deriving DecidableEq, Repr

/-- SDK type `vpc.VPCInfo`, the fields read here. -/
structure VPCInfo where
  Name : String
  Tag : String
  Network : List String
  CreateTime : Int
  UpdateTime : Int
  NetworkInfo : List VPCNetworkInfo
deriving DecidableEq, Repr

/-- SDK type `vpc.CreateVPCRequest`; a nil pointer field is `none`. -/
structure CreateVPCRequest where
  Network : List String
  Name : Option String
  Tag : Option String
  Remark : Option String
deriving DecidableEq, Repr

/-- SDK type `vpc.CreateVPCResponse`. -/
structure CreateVPCResponse where
  VPCId : String
deriving DecidableEq, Repr

/-- SDK type `vpc.AddVPCNetworkRequest`. -/
structure AddVPCNetworkRequest where
  VPCId : Option String
  Network : List String
deriving DecidableEq, Repr

/-- SDK type `vpc.UpdateVPCNetworkRequest`. -/
structure UpdateVPCNetworkRequest where
  VPCId : Option String
  Network : List String
deriving DecidableEq, Repr

/-- SDK type `vpc.DeleteVPCRequest`. -/
structure DeleteVPCRequest where
  VPCId : Option String
deriving DecidableEq, Repr

/-- A remote call, as issued. -/
inductive Call where
  | CreateVPC (req : CreateVPCRequest)
  | AddVPCNetwork (req : AddVPCNetworkRequest)
  | UpdateVPCNetwork (req : UpdateVPCNetworkRequest)
  | DeleteVPC (req : DeleteVPCRequest)
  | describeVPCById (vpcId : String)
deriving DecidableEq, Repr

/-- Whether the call changes the remote record (everything but describe-by-id). -/
def Call.mutating : Call → Bool
  | Call.describeVPCById _ => false
  | _ => true

/-- Whether the call is an `AddVPCNetwork`. -/
def Call.isAdd : Call → Bool
  | Call.AddVPCNetwork _ => true
  | _ => false

/-- Whether the call is an `UpdateVPCNetwork`. -/
def Call.isUpdate : Call → Bool
  | Call.UpdateVPCNetwork _ => true
  | _ => false

/-- Whether the call is a `DeleteVPC`. -/
def Call.isDelete : Call → Bool
  | Call.DeleteVPC _ => true
  | _ => false

/-- The `*UCloudClient` handed to the handlers as `meta`: the responses of the remote
service over its state `σ` (the four `vpcconn` calls and `describeVPCById`), and the
package-level names used by this file and declared elsewhere (`isNotFoundError`,
`defaultTag`, `timestampToString`). -/
structure UCloudClient (σ : Type) where
  CreateVPC : CreateVPCRequest → σ → Except Error CreateVPCResponse × σ
  AddVPCNetwork : AddVPCNetworkRequest → σ → Option Error × σ
  UpdateVPCNetwork : UpdateVPCNetworkRequest → σ → Option Error × σ
  DeleteVPC : DeleteVPCRequest → σ → Option Error × σ
  describeVPCById : String → σ → Except Error VPCInfo × σ
  isNotFoundError : Error → Bool
  defaultTag : String
  timestampToString : Int → String

/-- The remote state together with the calls issued so far, oldest first. -/
structure World (σ : Type) where
  remote : σ
  calls : List Call

/-- Issue the call `c`: run the service's response function, record the call. -/
def World.call {σ α : Type} (w : World σ) (c : Call) (f : σ → α × σ) : α × World σ :=
  ((f w.remote).1, { remote := (f w.remote).2, calls := w.calls ++ [c] })

/-- Modelled from the spec: `schemaSetToStringSlice` is defined outside this file; it
gives the members of the set as a string slice. -/
def schemaSetToStringSlice (s : schema.Set) : List String := s.List

/-- What a handler leaves behind: its error (nil is `none`), the resource data, and
the world. -/
structure Outcome (σ : Type) where
  err : Option Error
  d : ResourceData
  world : World σ

/-- The calls a handler issued when started in the world `w`. -/
def Outcome.issued {σ : Type} (o : Outcome σ) (w : World σ) : List Call :=
  o.world.calls.drop w.calls.length

/-! ## The diff validation rule -/

/-- Function `diffSupressVPCNetworkUpdate(old, new, meta)`: `none` is the nil error. -/
def diffSupressVPCNetworkUpdate (old new : schema.Set) : Option Error :=
  let o := old
  let n := new
  if (o.Difference n).Len > 0 && (n.Difference o).Len > 0 then
    some (Error.errorf "excepted only create or delete operation for network, could not apply both them, please apply delete first, and then apply create" [])
  else
    none


/-! ## The handlers -/

/-- Function `resourceUCloudVPCRead(d, meta)`. -/
def resourceUCloudVPCRead {σ : Type} (client : UCloudClient σ) (d : ResourceData)
    (w : World σ) : Outcome σ :=
  match w.call (Call.describeVPCById d.Id) (client.describeVPCById d.Id) with
  | (Except.error err, w1) =>
    if client.isNotFoundError err then
      { err := none, d := d.SetId "", world := w1 }
    else
      { err := some (Error.errorfWrap "error on reading vpc %q, %s" [d.Id] err), d := d, world := w1 }
  | (Except.ok vpcSet, w1) =>
    let d1 := (d.Set "name" (FieldValue.str vpcSet.Name)).1
    let d2 := (d1.Set "tag" (FieldValue.str vpcSet.Tag)).1
    let d3 := (d2.Set "cidr_blocks" (FieldValue.strs vpcSet.Network)).1
    let d4 := (d3.Set "create_time" (FieldValue.str (client.timestampToString vpcSet.CreateTime))).1
    let d5 := (d4.Set "update_time" (FieldValue.str (client.timestampToString vpcSet.UpdateTime))).1
    let networkInfo := vpcSet.NetworkInfo.foldl
      (fun acc item => acc ++ [[("cidr_block", item.Network)]]) []
    match d5.Set "network_info" (FieldValue.maps networkInfo) with
    | (d6, some err) => { err := some err, d := d6, world := w1 }
    | (d6, none) => { err := none, d := d6, world := w1 }

/-- Function `resourceUCloudVPCUpdate(d, meta)`. -/
def resourceUCloudVPCUpdate {σ : Type} (client : UCloudClient σ) (d : ResourceData)
    (w : World σ) : Outcome σ :=
  let d1 := d.Partial true
  if d1.HasChange && !d1.IsNewResource then
    let os := d1.GetChange.1
    let ns := d1.GetChange.2
    let new := ns.Difference os
    let added : Option Error × World σ :=
      if new.Len > 0 then
        let req : AddVPCNetworkRequest :=
          { VPCId := some d1.Id, Network := schemaSetToStringSlice new }
        w.call (Call.AddVPCNetwork req) (client.AddVPCNetwork req)
      else (none, w)
    match added with
    | (some err, w1) =>
      { err := some (Error.errorfWrap "error on %s to vpc %q, %s" ["AddVPCNetwork", d1.Id] err),
        d := d1, world := w1 }
    | (none, w1) =>
      let remove := os.Difference ns
      let removed : Option Error × World σ :=
        if remove.Len > 0 then
          let req : UpdateVPCNetworkRequest :=
            { VPCId := some d1.Id, Network := schemaSetToStringSlice ns }
          w1.call (Call.UpdateVPCNetwork req) (client.UpdateVPCNetwork req)
        else (none, w1)
      match removed with
      | (some err, w2) =>
        { err := some (Error.errorfWrap "error on %s to vpc %q, %s" ["UpdateVPCNetwork", d1.Id] err),
          d := d1, world := w2 }
      | (none, w2) =>
        resourceUCloudVPCRead client ((d1.SetPartial "cidr_blocks").Partial false) w2
  else
    resourceUCloudVPCRead client (d1.Partial false) w

/-- The function `resourceUCloudVPCDelete` hands to `resource.Retry`: one attempt. -/
def resourceUCloudVPCDelete.attempt {σ : Type} (client : UCloudClient σ) (d : ResourceData)
    (req : DeleteVPCRequest) (w : World σ) : Option resource.RetryError × World σ :=
  match w.call (Call.DeleteVPC req) (client.DeleteVPC req) with
  | (some err, w1) =>
    (some (resource.NonRetryableError
      (Error.errorfWrap "error on deleting vpc %q, %s" [d.Id] err)), w1)
  | (none, w1) =>
    match w1.call (Call.describeVPCById d.Id) (client.describeVPCById d.Id) with
    | (Except.error err, w2) =>
      if client.isNotFoundError err then (none, w2)
      else
        (some (resource.NonRetryableError
          (Error.errorfWrap "error on reading vpc when deleting %q, %s" [d.Id] err)), w2)
    | (Except.ok _, w2) =>
      (some (resource.RetryableError
        (Error.errorf "the specified vpc %q has not been deleted due to unknown error" [d.Id])), w2)

/-- Function `resourceUCloudVPCDelete(d, meta)`; `fuel` is the number of attempts whose result
arrives within the 5-minute ceiling. -/
def resourceUCloudVPCDelete {σ : Type} (client : UCloudClient σ) (fuel : Nat) (d : ResourceData)
    (w : World σ) : Outcome σ :=
  let req : DeleteVPCRequest := { VPCId := some d.Id }
  match resource.Retry (5 * time.Minute) (resourceUCloudVPCDelete.attempt client d req) fuel w with
  | (err, w1) => { err := err, d := d, world := w1 }

/-- Function `vpcWaitForState(client, id)`. -/
def vpcWaitForState {σ : Type} (client : UCloudClient σ) (id : String) :
    resource.StateChangeConf (World σ) VPCInfo :=
  { Pending := [statusPending]
    Target := [statusInitialized]
    Timeout := 3 * time.Minute
    Delay := 2 * time.Second
    MinTimeout := 1 * time.Second
    NotFoundChecks := 0
    Refresh := fun w =>
      match w.call (Call.describeVPCById id) (client.describeVPCById id) with
      | (Except.error err, w1) =>
        if client.isNotFoundError err then ((none, statusPending, none), w1)
        else ((none, "", some err), w1)
      | (Except.ok v, w1) => ((some v, statusInitialized, none), w1) }

/-- The request `resourceUCloudVPCCreate` builds before it calls `CreateVPC`; `stamp`
is the suffix `resource.PrefixedUniqueId` would append. -/
def resourceUCloudVPCCreate.request {σ : Type} (client : UCloudClient σ) (stamp : String)
    (d : ResourceData) : CreateVPCRequest :=
  let req0 : CreateVPCRequest :=
    { Network := schemaSetToStringSlice d.GetCidrBlocks, Name := none, Tag := none,
      Remark := none }
  let req1 : CreateVPCRequest :=
    if (d.GetOk "name").2 then { req0 with Name := some (d.GetOk "name").1 }
    else { req0 with Name := some (resource.PrefixedUniqueId "tf-vpc-" stamp) }
  let req2 : CreateVPCRequest :=
    if (d.GetOk "tag").2 then { req1 with Tag := some (d.GetOk "tag").1 }
    else { req1 with Tag := some client.defaultTag }
  if (d.GetOk "remark").2 then { req2 with Remark := some (d.GetOk "remark").1 }
  else req2

/-- Function `resourceUCloudVPCCreate(d, meta)`; `fuel` is the number of refreshes whose result
arrives within the poller's timeout. -/
def resourceUCloudVPCCreate {σ : Type} (client : UCloudClient σ) (stamp : String) (fuel : Nat)
    (d : ResourceData) (w : World σ) : Outcome σ :=
  let req := resourceUCloudVPCCreate.request client stamp d
  match w.call (Call.CreateVPC req) (client.CreateVPC req) with
  | (Except.error err, w1) =>
    { err := some (Error.errorfWrap "error on creating vpc, %s" [] err), d := d, world := w1 }
  | (Except.ok resp, w1) =>
    let d1 := d.SetId resp.VPCId
    match (vpcWaitForState client d1.Id).WaitForState fuel w1 with
    | ((_, some err), w2) =>
      { err := some (Error.errorfWrap "error on waiting for vpc %q complete creating, %s" [d1.Id] err),
        d := d1, world := w2 }
    | ((_, none), w2) => resourceUCloudVPCRead client d1 w2

/-! ## The resource and the diff step of the framework -/

/-- Function `customdiff.ValidateChange("cidr_blocks", f)`: the customize-diff function
that hands the old and new value of `cidr_blocks` to `f`. -/
def customdiff.ValidateChange (f : schema.Set → schema.Set → Option Error) :
    ResourceData → Option Error :=
  fun d => f d.GetChange.1 d.GetChange.2

/-- Function `customdiff.All(funcs...)`: runs every function and appends the errors
returned; nil when none returns an error. -/
def customdiff.All (funcs : List (ResourceData → Option Error)) : ResourceData → Option Error :=
  fun d =>
    funcs.foldl
      (fun err f =>
        match f d with
        | some thisErr =>
          (match err with
            | none => some (Error.multierrorOne thisErr)
            | some acc => some (Error.multierror acc thisErr))
        | none => err)
      none

/-- The fields of `schema.Resource` that `resourceUCloudVPC` sets to functions. The
fuel and stamp arguments are those of the handlers. -/
structure Resource (σ : Type) where
  Create : String → Nat → ResourceData → World σ → Outcome σ
  Update : ResourceData → World σ → Outcome σ
  Read : ResourceData → World σ → Outcome σ
  Delete : Nat → ResourceData → World σ → Outcome σ
  CustomizeDiff : ResourceData → Option Error

/-- Function `resourceUCloudVPC()`, with `meta` the client. -/
def resourceUCloudVPC {σ : Type} (client : UCloudClient σ) : Resource σ :=
  { Create := resourceUCloudVPCCreate client
    Update := resourceUCloudVPCUpdate client
    Read := resourceUCloudVPCRead client
    Delete := resourceUCloudVPCDelete client
    CustomizeDiff :=
      customdiff.All [customdiff.ValidateChange diffSupressVPCNetworkUpdate] }

/-- The framework's handling of a change to an existing resource: the diff step runs
`CustomizeDiff`, and an error there ends the operation before any handler runs;
otherwise the apply step runs `Update`. -/
def Resource.diffThenUpdate {σ : Type} (r : Resource σ) (d : ResourceData) (w : World σ) :
    Outcome σ :=
  match r.CustomizeDiff d with
  | some err => { err := some err, d := d, world := w }
  | none => r.Update d w

/-! ## Example services and inputs -/

/-- A record the example services return from describe-by-id. -/
def exampleVPC : VPCInfo :=
  { Name := "tf-vpc-1", Tag := "Default", Network := ["10.0.0.0/8"], CreateTime := 0,
    UpdateTime := 0, NetworkInfo := [{ Network := "10.0.0.0/8" }] }

/-- A stateless service: describe-by-id always answers `desc`, `DeleteVPC` always
answers `del`, and the other calls succeed. -/
def constClient (desc : Except Error VPCInfo) (del : Option Error) : UCloudClient Unit :=
  { CreateVPC := fun _ s => (Except.ok { VPCId := "vpc-1" }, s)
    AddVPCNetwork := fun _ s => (none, s)
    UpdateVPCNetwork := fun _ s => (none, s)
    DeleteVPC := fun _ s => (del, s)
    describeVPCById := fun _ s => (desc, s)
    isNotFoundError := Error.isNotFound
    defaultTag := "Default"
    timestampToString := fun _ => "1970-01-01 00:00:00" }

/-- A service that keeps the identifiers of the records that exist: `DeleteVPC`
removes a record at once and fails for an identifier that is not there;
describe-by-id reports not-found for such an identifier. -/
def memClient : UCloudClient (List String) :=
  { CreateVPC := fun _ s => (Except.ok { VPCId := "vpc-1" }, "vpc-1" :: s)
    AddVPCNetwork := fun _ s => (none, s)
    UpdateVPCNetwork := fun _ s => (none, s)
    DeleteVPC := fun req s =>
      if s.contains (req.VPCId.getD "") then (none, s.erase (req.VPCId.getD ""))
      else (some (Error.remote "vpc does not exist"), s)
    describeVPCById := fun id s =>
      if s.contains id then (Except.ok exampleVPC, s)
      else (Except.error (Error.notFound "vpc not found"), s)
    isNotFoundError := Error.isNotFound
    defaultTag := "Default"
    timestampToString := fun _ => "1970-01-01 00:00:00" }

/-- A service that deletes asynchronously: the state counts the `DeleteVPC` requests
received, every one is accepted, and the record is still described until two have
arrived. -/
def slowClient : UCloudClient Nat :=
  { CreateVPC := fun _ s => (Except.ok { VPCId := "vpc-1" }, s)
    AddVPCNetwork := fun _ s => (none, s)
    UpdateVPCNetwork := fun _ s => (none, s)
    DeleteVPC := fun _ s => (none, s + 1)
    describeVPCById := fun _ s =>
      if s < 2 then (Except.ok exampleVPC, s)
      else (Except.error (Error.notFound "vpc not found"), s)
    isNotFoundError := Error.isNotFound
    defaultTag := "Default"
    timestampToString := fun _ => "1970-01-01 00:00:00" }

/-- Resource data of the existing record `vpc-1` with the given old and new
`cidr_blocks` and string attributes. -/
def exampleData (old new : schema.Set) (attrs : List (String × String)) : ResourceData :=
  { id := "vpc-1", isNew := false, attrs := attrs, defaults := [("tag", "Default")],
    cidrOld := old, cidrNew := new,
    partialMode := false, partialKeys := [], setWriter := [] }

/-- The set holding `10.0.0.0/8` (under the code 1). -/
def setA : schema.Set := ⟨[("1", "10.0.0.0/8")]⟩

/-- The set holding `10.1.0.0/16` (under the code 2). -/
def setB : schema.Set := ⟨[("2", "10.1.0.0/16")]⟩

/-- The set holding both `10.0.0.0/8` and `10.1.0.0/16`. -/
def setAB : schema.Set := ⟨[("2", "10.1.0.0/16"), ("1", "10.0.0.0/8")]⟩

/-- Whether the record `id` is absent in the remote state `s`: describe-by-id answers
with a not-found error. -/
def recordAbsent {σ : Type} (client : UCloudClient σ) (id : String) (s : σ) : Bool :=
  match (client.describeVPCById id s).1 with
  | Except.error err => client.isNotFoundError err
  | Except.ok _ => false

/-- A world with no call issued yet. -/
def World.start {σ : Type} (s : σ) : World σ := { remote := s, calls := [] }

end UCloud

/-! ## Theorems -/

namespace UCloud

open schema (ResourceData FieldValue)

/-! ### Helper lemmas -/

theorem World.call_calls {σ α : Type} (w : World σ) (c : Call) (f : σ → α × σ) :
    (w.call c f).2.calls = w.calls ++ [c] := rfl

theorem World.call_fst {σ α : Type} (w : World σ) (c : Call) (f : σ → α × σ) :
    (w.call c f).1 = (f w.remote).1 := rfl

theorem World.call_remote {σ α : Type} (w : World σ) (c : Call) (f : σ → α × σ) :
    (w.call c f).2.remote = (f w.remote).2 := rfl

theorem resourceUCloudVPCRead_calls {σ : Type} (client : UCloudClient σ) (d : ResourceData)
    (w : World σ) :
    (resourceUCloudVPCRead client d w).world.calls = w.calls ++ [Call.describeVPCById d.Id] := by
  unfold resourceUCloudVPCRead
  split
  · next err w1 h =>
    have hw : w1 = (w.call (Call.describeVPCById d.Id) (client.describeVPCById d.Id)).2 := by
      rw [h]
    split <;> simp [hw, World.call_calls]
  · next v w1 h =>
    have hw : w1 = (w.call (Call.describeVPCById d.Id) (client.describeVPCById d.Id)).2 := by
      rw [h]
    simp [schema.ResourceData.Set, hw, World.call_calls]

theorem Set.hasKey_iff (s : schema.Set) (k : String) :
    s.hasKey k = true ↔ ∃ v, (k, v) ∈ s.m := by
  unfold schema.Set.hasKey
  simp only [List.any_eq_true, beq_iff_eq]
  constructor
  · rintro ⟨⟨k1, v⟩, hmem, hk⟩
    exact ⟨v, by simpa [← hk] using hmem⟩
  · rintro ⟨v, hmem⟩
    exact ⟨(k, v), hmem, rfl⟩

theorem Set.Difference_pos_iff (s other : schema.Set) :
    0 < (s.Difference other).Len ↔ ∃ e ∈ s.m, other.hasKey e.1 = false := by
  unfold schema.Set.Len schema.Set.Difference
  rw [List.length_pos_iff_exists_mem]
  simp [List.mem_filter]

theorem Set.Equal_false_of_Difference_pos (s other : schema.Set)
    (h : 0 < (s.Difference other).Len) : s.Equal other = false ∧ other.Equal s = false := by
  obtain ⟨e, he, hk⟩ := (Set.Difference_pos_iff s other).1 h
  have hne : e ∉ other.m := by
    intro hmem
    have : other.hasKey e.1 = true := (Set.hasKey_iff other e.1).2 ⟨e.2, hmem⟩
    simp [this] at hk
  have h1 : (s.m.all fun x => other.m.contains x) = false := by
    rw [Bool.eq_false_iff]
    intro hall
    rw [List.all_eq_true] at hall
    have := hall e he
    simp at this
    exact hne this
  constructor
  · unfold schema.Set.Equal
    rw [h1, Bool.false_and]
  · unfold schema.Set.Equal
    rw [h1, Bool.and_false]

theorem Set.List_perm (s : schema.Set) : s.List.Perm s.members := by
  unfold schema.Set.List schema.Set.members
  exact (List.perm_insertionSort _ _).map _

/-- C1: `diffSupressVPCNetworkUpdate` returns an error exactly when both set
differences, old minus new and new minus old, are non-empty; otherwise nil. -/
theorem diffSupressVPCNetworkUpdate_rejects_iff (old new : schema.Set) :
    ((diffSupressVPCNetworkUpdate old new).isSome = true ↔
        0 < (old.Difference new).Len ∧ 0 < (new.Difference old).Len) ∧
      (diffSupressVPCNetworkUpdate old new = none ↔
        ¬ (0 < (old.Difference new).Len ∧ 0 < (new.Difference old).Len)) := by
  unfold diffSupressVPCNetworkUpdate
  by_cases h1 : 0 < (old.Difference new).Len <;> by_cases h2 : 0 < (new.Difference old).Len <;>
    simp [h1, h2]

theorem HasChange_of_added (d : ResourceData)
    (h : 0 < (d.cidrNew.Difference d.cidrOld).Len) : (d.Partial true).HasChange = true := by
  unfold schema.ResourceData.HasChange schema.ResourceData.GetChange schema.ResourceData.Partial
  simp [(Set.Equal_false_of_Difference_pos d.cidrNew d.cidrOld h).2]

theorem HasChange_of_removed (d : ResourceData)
    (h : 0 < (d.cidrOld.Difference d.cidrNew).Len) : (d.Partial true).HasChange = true := by
  unfold schema.ResourceData.HasChange schema.ResourceData.GetChange schema.ResourceData.Partial
  simp [(Set.Equal_false_of_Difference_pos d.cidrOld d.cidrNew h).1]

/-! ### The retry loop -/

theorem retry_waitLoop_succ {ω : Type} (t : Nat) (f : ω → Option resource.RetryError × ω)
    (c fuel tick : Nat) (ls : String) (w : ω) (r : Option Error) :
    (resource.retryConf t f).waitLoop c (fuel + 1) tick ls (w, r) =
      match f w with
      | (none, w1) => ((some 42, none), (w1, none))
      | (some rerr, w1) =>
        if rerr.Retryable then
          (resource.retryConf t f).waitLoop c fuel 0 "retryableerror" (w1, some rerr.Err)
        else ((none, some rerr.Err), (w1, some rerr.Err)) := by
  rw [resource.StateChangeConf.waitLoop]
  rcases hf : f w with ⟨_ | rerr, w1⟩
  · simp [resource.retryConf, hf]
  · by_cases hr : rerr.Retryable = true
    · simp [resource.retryConf, hf, hr]
    · simp [resource.retryConf, hf, hr]

theorem Retry_nil {ω : Type} (t : Nat) (f : ω → Option resource.RetryError × ω) (fuel : Nat)
    (w w1 : ω) (hf : f w = (none, w1)) : resource.Retry t f (fuel + 1) w = (none, w1) := by
  simp [resource.Retry, resource.StateChangeConf.WaitForState, retry_waitLoop_succ, hf]

theorem Retry_terminal {ω : Type} (t : Nat) (f : ω → Option resource.RetryError × ω) (fuel : Nat)
    (w w1 : ω) (rerr : resource.RetryError) (hf : f w = (some rerr, w1))
    (hr : rerr.Retryable = false) : resource.Retry t f (fuel + 1) w = (some rerr.Err, w1) := by
  simp [resource.Retry, resource.StateChangeConf.WaitForState, retry_waitLoop_succ, hf, hr]

theorem Retry_last {ω : Type} (t : Nat) (f : ω → Option resource.RetryError × ω)
    (w w1 : ω) (rerr : resource.RetryError) (hf : f w = (some rerr, w1))
    (hr : rerr.Retryable = true) : resource.Retry t f 1 w = (some rerr.Err, w1) := by
  unfold resource.Retry resource.StateChangeConf.WaitForState
  rw [retry_waitLoop_succ t f _ 0 0 "" w none]
  simp only [hf, hr, if_true]
  rw [resource.StateChangeConf.waitLoop]

theorem Retry_again {ω : Type} (t : Nat) (f : ω → Option resource.RetryError × ω) (fuel : Nat)
    (w w1 : ω) (rerr : resource.RetryError) (hf : f w = (some rerr, w1))
    (hr : rerr.Retryable = true) :
    resource.Retry t f (fuel + 2) w = resource.Retry t f (fuel + 1) w1 := by
  unfold resource.Retry resource.StateChangeConf.WaitForState
  rw [retry_waitLoop_succ t f _ (fuel + 1) 0 "" w none]
  simp only [hf, hr, if_true]
  rw [retry_waitLoop_succ t f _ fuel 0 "retryableerror" w1, retry_waitLoop_succ t f _ fuel 0 "" w1]

theorem Retry_nil_inv {ω : Type} (t : Nat) (f : ω → Option resource.RetryError × ω) (fuel : Nat) :
    ∀ (w w2 : ω), resource.Retry t f (fuel + 1) w = (none, w2) → ∃ w0, f w0 = (none, w2) := by
  induction fuel with
  | zero =>
    intro w w2 h
    rcases hf : f w with ⟨_ | rerr, w1⟩
    · rw [Retry_nil t f 0 w w1 hf] at h
      exact ⟨w, by rw [hf, (Prod.mk.inj h).2]⟩
    · by_cases hr : rerr.Retryable = true
      · rw [Retry_last t f w w1 rerr hf hr] at h
        simp at h
      · rw [Retry_terminal t f 0 w w1 rerr hf (by simpa using hr)] at h
        simp at h
  | succ n ih =>
    intro w w2 h
    rcases hf : f w with ⟨_ | rerr, w1⟩
    · rw [Retry_nil t f (n + 1) w w1 hf] at h
      exact ⟨w, by rw [hf, (Prod.mk.inj h).2]⟩
    · by_cases hr : rerr.Retryable = true
      · rw [Retry_again t f n w w1 rerr hf hr] at h
        exact ih w1 w2 h
      · rw [Retry_terminal t f (n + 1) w w1 rerr hf (by simpa using hr)] at h
        simp at h

/-! ### Update -/

theorem update_issued_isAdd {σ : Type} (client : UCloudClient σ) (d : ResourceData) (w : World σ)
    (h : ¬ 0 < (d.GetChange.2.Difference d.GetChange.1).Len) :
    ((resourceUCloudVPCUpdate client d w).issued w).any Call.isAdd = false := by
  have h1 : ¬ 0 < ((d.Partial true).GetChange.2.Difference (d.Partial true).GetChange.1).Len := h
  unfold Outcome.issued resourceUCloudVPCUpdate
  by_cases hG : ((d.Partial true).HasChange && !(d.Partial true).IsNewResource) = true
  · by_cases hR : 0 < ((d.Partial true).GetChange.1.Difference (d.Partial true).GetChange.2).Len
    · cases hU : (client.UpdateVPCNetwork
        { VPCId := some (d.Partial true).Id,
          Network := schemaSetToStringSlice (d.Partial true).GetChange.2 } w.remote).1 <;>
        simp [hG, h1, hR, hU, World.call, resourceUCloudVPCRead_calls, Call.isAdd]
    · simp [hG, h1, hR, World.call, resourceUCloudVPCRead_calls, Call.isAdd]
  · simp [hG, resourceUCloudVPCRead_calls, Call.isAdd]

theorem update_issued_isUpdate {σ : Type} (client : UCloudClient σ) (d : ResourceData)
    (w : World σ) (h : ¬ 0 < (d.GetChange.1.Difference d.GetChange.2).Len) :
    ((resourceUCloudVPCUpdate client d w).issued w).any Call.isUpdate = false := by
  have h1 : ¬ 0 < ((d.Partial true).GetChange.1.Difference (d.Partial true).GetChange.2).Len := h
  unfold Outcome.issued resourceUCloudVPCUpdate
  by_cases hG : ((d.Partial true).HasChange && !(d.Partial true).IsNewResource) = true
  · by_cases hA : 0 < ((d.Partial true).GetChange.2.Difference (d.Partial true).GetChange.1).Len
    · cases hU : (client.AddVPCNetwork
        { VPCId := some (d.Partial true).Id,
          Network := schemaSetToStringSlice
            ((d.Partial true).GetChange.2.Difference (d.Partial true).GetChange.1) } w.remote).1 <;>
        simp [hG, h1, hA, hU, World.call, resourceUCloudVPCRead_calls, Call.isUpdate]
    · simp [hG, h1, hA, World.call, resourceUCloudVPCRead_calls, Call.isUpdate]
  · simp [hG, resourceUCloudVPCRead_calls, Call.isUpdate]

theorem resourceUCloudVPCUpdate_accepted_pair_never_both {σ : Type} (client : UCloudClient σ)
    (d : ResourceData) (w : World σ)
    (h : diffSupressVPCNetworkUpdate d.GetChange.1 d.GetChange.2 = none) :
    ¬ (((resourceUCloudVPCUpdate client d w).issued w).any Call.isAdd = true ∧
        ((resourceUCloudVPCUpdate client d w).issued w).any Call.isUpdate = true) := by
  rintro ⟨hadd, hupd⟩
  by_cases hA : 0 < (d.GetChange.2.Difference d.GetChange.1).Len
  · by_cases hR : 0 < (d.GetChange.1.Difference d.GetChange.2).Len
    · unfold diffSupressVPCNetworkUpdate at h
      simp [hA, hR] at h
    · rw [update_issued_isUpdate client d w hR] at hupd
      exact Bool.false_ne_true hupd
  · rw [update_issued_isAdd client d w hA] at hadd
    exact Bool.false_ne_true hadd

theorem resourceUCloudVPC_CustomizeDiff {σ : Type} (client : UCloudClient σ)
    (d : ResourceData) :
    (resourceUCloudVPC client).CustomizeDiff d =
      match diffSupressVPCNetworkUpdate d.GetChange.1 d.GetChange.2 with
      | some e => some (Error.multierrorOne e)
      | none => none := by
  simp only [resourceUCloudVPC, customdiff.All, customdiff.ValidateChange, List.foldl]

theorem diffThenUpdate_rejected {σ : Type} (client : UCloudClient σ) (d : ResourceData)
    (w : World σ) (e : Error)
    (h : diffSupressVPCNetworkUpdate d.GetChange.1 d.GetChange.2 = some e) :
    (resourceUCloudVPC client).diffThenUpdate d w =
      { err := some (Error.multierrorOne e), d := d, world := w } := by
  unfold Resource.diffThenUpdate
  rw [resourceUCloudVPC_CustomizeDiff, h]

theorem diffThenUpdate_accepted {σ : Type} (client : UCloudClient σ) (d : ResourceData)
    (w : World σ) (h : diffSupressVPCNetworkUpdate d.GetChange.1 d.GetChange.2 = none) :
    (resourceUCloudVPC client).diffThenUpdate d w = resourceUCloudVPCUpdate client d w := by
  unfold Resource.diffThenUpdate
  rw [resourceUCloudVPC_CustomizeDiff, h]
  rfl

/-- The guard is the diff step, not the handler: `resourceUCloudVPCUpdate` called
directly on old = {10.0.0.0/8}, new = {10.1.0.0/16} issues both requests. -/
theorem resourceUCloudVPCUpdate_direct_call_issues_both :
    (resourceUCloudVPCUpdate (constClient (Except.ok exampleVPC) none) (exampleData setA setB [])
        (World.start ())).issued (World.start ()) =
      [Call.AddVPCNetwork { VPCId := some "vpc-1", Network := ["10.1.0.0/16"] },
       Call.UpdateVPCNetwork { VPCId := some "vpc-1", Network := ["10.1.0.0/16"] },
       Call.describeVPCById "vpc-1"] := by
  decide

/-- C2: the resource registers `diffSupressVPCNetworkUpdate` as its diff validation, so
for every pair of old and new CIDR-block sets that it rejects the change ends at the
diff step with the validation error and no remote call at all, in particular neither
an `AddVPCNetwork` nor an `UpdateVPCNetwork` request; and for every change that
reaches `resourceUCloudVPCUpdate` through the resource, the add request and the
overwrite request are never both issued. -/
theorem resourceUCloudVPC_rejected_change_no_call {σ : Type} (client : UCloudClient σ)
    (d : ResourceData) (w : World σ) :
    (∀ e, diffSupressVPCNetworkUpdate d.GetChange.1 d.GetChange.2 = some e →
        ((resourceUCloudVPC client).diffThenUpdate d w).issued w = [] ∧
          ((resourceUCloudVPC client).diffThenUpdate d w).world.remote = w.remote ∧
          ((resourceUCloudVPC client).diffThenUpdate d w).err = some (Error.multierrorOne e)) ∧
      ¬ ((((resourceUCloudVPC client).diffThenUpdate d w).issued w).any Call.isAdd = true ∧
          (((resourceUCloudVPC client).diffThenUpdate d w).issued w).any Call.isUpdate = true) ∧
      ((resourceUCloudVPC client).Update = resourceUCloudVPCUpdate client ∧
        (diffSupressVPCNetworkUpdate d.GetChange.1 d.GetChange.2 = none →
          (resourceUCloudVPC client).diffThenUpdate d w = resourceUCloudVPCUpdate client d w)) := by
  refine ⟨?_, ?_, rfl, diffThenUpdate_accepted client d w⟩
  · intro e h
    rw [diffThenUpdate_rejected client d w e h]
    exact ⟨by simp [Outcome.issued], rfl, rfl⟩
  · cases h : diffSupressVPCNetworkUpdate d.GetChange.1 d.GetChange.2 with
    | some e =>
      rw [diffThenUpdate_rejected client d w e h]
      simp [Outcome.issued]
    | none =>
      rw [diffThenUpdate_accepted client d w h]
      exact resourceUCloudVPCUpdate_accepted_pair_never_both client d w h

/-- Witness for C2: the change from {10.0.0.0/8} to {10.1.0.0/16}, a simultaneous add
and remove, is rejected and issues no remote call. -/
theorem resourceUCloudVPC_rejected_change_no_call_witness :
    (diffSupressVPCNetworkUpdate (exampleData setA setB []).GetChange.1
        (exampleData setA setB []).GetChange.2).isSome = true ∧
      ((resourceUCloudVPC (constClient (Except.ok exampleVPC) none)).diffThenUpdate
          (exampleData setA setB []) (World.start ())).issued (World.start ()) = [] ∧
      ((resourceUCloudVPC (constClient (Except.ok exampleVPC) none)).diffThenUpdate
          (exampleData setA setB []) (World.start ())).err.isSome = true :=
  ⟨by decide,
    ((resourceUCloudVPC_rejected_change_no_call (constClient (Except.ok exampleVPC) none)
      (exampleData setA setB []) (World.start ())).1 _ rfl).1,
    by
      rw [((resourceUCloudVPC_rejected_change_no_call (constClient (Except.ok exampleVPC) none)
        (exampleData setA setB []) (World.start ())).1 _ rfl).2.2]
      rfl⟩

/-- C3: for an existing (not new) resource whose new set adds members and removes
none, `resourceUCloudVPCUpdate` issues exactly one mutating request, an
`AddVPCNetwork` whose `VPCId` is the identifier and whose `Network` holds exactly the
members of new minus old, and it issues no `UpdateVPCNetwork` request. -/
theorem resourceUCloudVPCUpdate_add_only {σ : Type} (client : UCloudClient σ)
    (d : ResourceData) (w : World σ)
    (hnew : d.IsNewResource = false)
    (hadd : 0 < (d.GetChange.2.Difference d.GetChange.1).Len)
    (hrem : (d.GetChange.1.Difference d.GetChange.2).Len = 0) :
    ∃ req : AddVPCNetworkRequest,
      ((resourceUCloudVPCUpdate client d w).issued w).filter Call.mutating =
          [Call.AddVPCNetwork req] ∧
        req.VPCId = some d.Id ∧
        req.Network.Perm (d.GetChange.2.Difference d.GetChange.1).members ∧
        ((resourceUCloudVPCUpdate client d w).issued w).any Call.isUpdate = false := by
  refine ⟨{ VPCId := some d.Id,
            Network := schemaSetToStringSlice (d.GetChange.2.Difference d.GetChange.1) },
    ?_, rfl, Set.List_perm _, update_issued_isUpdate client d w (by omega)⟩
  have hc := HasChange_of_added d hadd
  have hn : (d.Partial true).IsNewResource = false := hnew
  have hadd1 :
      0 < ((d.Partial true).GetChange.2.Difference (d.Partial true).GetChange.1).Len := hadd
  have hrem1 :
      ((d.Partial true).GetChange.1.Difference (d.Partial true).GetChange.2).Len = 0 := hrem
  unfold Outcome.issued resourceUCloudVPCUpdate
  cases hA : (client.AddVPCNetwork
      { VPCId := some (d.Partial true).Id,
        Network := schemaSetToStringSlice
          ((d.Partial true).GetChange.2.Difference (d.Partial true).GetChange.1) } w.remote).1 with
  | some err =>
    simp [hc, hn, hadd1, hrem1, hA, World.call, Call.mutating]
    exact ⟨rfl, rfl⟩
  | none =>
    simp [hc, hn, hadd1, hrem1, hA, World.call, resourceUCloudVPCRead_calls, Call.mutating]
    exact ⟨rfl, rfl⟩

/-- Witness for C3: old = {10.0.0.0/8}, new = {10.0.0.0/8, 10.1.0.0/16}. -/
theorem resourceUCloudVPCUpdate_add_only_witness :
    ((exampleData setA setAB []).IsNewResource = false ∧
      0 < ((exampleData setA setAB []).GetChange.2.Difference
            (exampleData setA setAB []).GetChange.1).Len ∧
      ((exampleData setA setAB []).GetChange.1.Difference
            (exampleData setA setAB []).GetChange.2).Len = 0) ∧
    ∃ req : AddVPCNetworkRequest,
      ((resourceUCloudVPCUpdate (constClient (Except.ok exampleVPC) none)
            (exampleData setA setAB []) (World.start ())).issued (World.start ())).filter
          Call.mutating = [Call.AddVPCNetwork req] ∧
        req.VPCId = some (exampleData setA setAB []).Id ∧
        req.Network.Perm
          ((exampleData setA setAB []).GetChange.2.Difference
            (exampleData setA setAB []).GetChange.1).members ∧
        ((resourceUCloudVPCUpdate (constClient (Except.ok exampleVPC) none)
            (exampleData setA setAB []) (World.start ())).issued (World.start ())).any
          Call.isUpdate = false :=
  ⟨by decide,
    resourceUCloudVPCUpdate_add_only (constClient (Except.ok exampleVPC) none)
      (exampleData setA setAB []) (World.start ()) (by decide) (by decide) (by decide)⟩

/-- C4: for an existing (not new) resource whose new set removes members and adds
none, `resourceUCloudVPCUpdate` issues exactly one mutating request, an
`UpdateVPCNetwork` whose `VPCId` is the identifier and whose `Network` holds exactly
the members of the full new set, and it issues no `AddVPCNetwork` request. -/
theorem resourceUCloudVPCUpdate_overwrite_only {σ : Type} (client : UCloudClient σ)
    (d : ResourceData) (w : World σ)
    (hnew : d.IsNewResource = false)
    (hrem : 0 < (d.GetChange.1.Difference d.GetChange.2).Len)
    (hadd : (d.GetChange.2.Difference d.GetChange.1).Len = 0) :
    ∃ req : UpdateVPCNetworkRequest,
      ((resourceUCloudVPCUpdate client d w).issued w).filter Call.mutating =
          [Call.UpdateVPCNetwork req] ∧
        req.VPCId = some d.Id ∧
        req.Network.Perm d.GetChange.2.members ∧
        ((resourceUCloudVPCUpdate client d w).issued w).any Call.isAdd = false := by
  refine ⟨{ VPCId := some d.Id, Network := schemaSetToStringSlice d.GetChange.2 },
    ?_, rfl, Set.List_perm _, update_issued_isAdd client d w (by omega)⟩
  have hc := HasChange_of_removed d hrem
  have hn : (d.Partial true).IsNewResource = false := hnew
  have hrem1 :
      0 < ((d.Partial true).GetChange.1.Difference (d.Partial true).GetChange.2).Len := hrem
  have hadd1 :
      ((d.Partial true).GetChange.2.Difference (d.Partial true).GetChange.1).Len = 0 := hadd
  unfold Outcome.issued resourceUCloudVPCUpdate
  cases hU : (client.UpdateVPCNetwork
      { VPCId := some (d.Partial true).Id,
        Network := schemaSetToStringSlice (d.Partial true).GetChange.2 } w.remote).1 with
  | some err =>
    simp [hc, hn, hadd1, hrem1, hU, World.call, Call.mutating]
    exact ⟨rfl, rfl⟩
  | none =>
    simp [hc, hn, hadd1, hrem1, hU, World.call, resourceUCloudVPCRead_calls, Call.mutating]
    exact ⟨rfl, rfl⟩

/-- Witness for C4: old = {10.0.0.0/8, 10.1.0.0/16}, new = {10.0.0.0/8}. -/
theorem resourceUCloudVPCUpdate_overwrite_only_witness :
    ((exampleData setAB setA []).IsNewResource = false ∧
      0 < ((exampleData setAB setA []).GetChange.1.Difference
            (exampleData setAB setA []).GetChange.2).Len ∧
      ((exampleData setAB setA []).GetChange.2.Difference
            (exampleData setAB setA []).GetChange.1).Len = 0) ∧
    ∃ req : UpdateVPCNetworkRequest,
      ((resourceUCloudVPCUpdate (constClient (Except.ok exampleVPC) none)
            (exampleData setAB setA []) (World.start ())).issued (World.start ())).filter
          Call.mutating = [Call.UpdateVPCNetwork req] ∧
        req.VPCId = some (exampleData setAB setA []).Id ∧
        req.Network.Perm (exampleData setAB setA []).GetChange.2.members ∧
        ((resourceUCloudVPCUpdate (constClient (Except.ok exampleVPC) none)
            (exampleData setAB setA []) (World.start ())).issued (World.start ())).any
          Call.isAdd = false :=
  ⟨by decide,
    resourceUCloudVPCUpdate_overwrite_only (constClient (Except.ok exampleVPC) none)
      (exampleData setAB setA []) (World.start ()) (by decide) (by decide) (by decide)⟩

/-! ### Read -/

theorem resourceUCloudVPCRead_notFound {σ : Type} (client : UCloudClient σ)
    (d : ResourceData) (w : World σ) (err : Error)
    (h : (client.describeVPCById d.Id w.remote).1 = Except.error err)
    (hnf : client.isNotFoundError err = true) :
    resourceUCloudVPCRead client d w =
      { err := none, d := d.SetId "",
        world := (w.call (Call.describeVPCById d.Id) (client.describeVPCById d.Id)).2 } := by
  simp only [resourceUCloudVPCRead, World.call, h, hnf, if_true]

theorem resourceUCloudVPCRead_otherError {σ : Type} (client : UCloudClient σ)
    (d : ResourceData) (w : World σ) (err : Error)
    (h : (client.describeVPCById d.Id w.remote).1 = Except.error err)
    (hnf : client.isNotFoundError err = false) :
    resourceUCloudVPCRead client d w =
      { err := some (Error.errorfWrap "error on reading vpc %q, %s" [d.Id] err), d := d,
        world := (w.call (Call.describeVPCById d.Id) (client.describeVPCById d.Id)).2 } := by
  simp [resourceUCloudVPCRead, World.call, h, hnf]

/-- C5: when describe-by-id fails with a not-found error, `resourceUCloudVPCRead`
sets the identifier to the empty string, writes no attribute and returns no error;
when it fails with any other error, `resourceUCloudVPCRead` returns an error (that
error, wrapped) and leaves the identifier, and the rest of the data, unchanged. -/
theorem resourceUCloudVPCRead_on_describe_error {σ : Type} (client : UCloudClient σ)
    (d : ResourceData) (w : World σ) (err : Error)
    (h : (client.describeVPCById d.Id w.remote).1 = Except.error err) :
    (client.isNotFoundError err = true →
        (resourceUCloudVPCRead client d w).err = none ∧
          (resourceUCloudVPCRead client d w).d.Id = "" ∧
          (resourceUCloudVPCRead client d w).d.setWriter = d.setWriter ∧
          (resourceUCloudVPCRead client d w).d = d.SetId "") ∧
      (client.isNotFoundError err = false →
        (resourceUCloudVPCRead client d w).err =
            some (Error.errorfWrap "error on reading vpc %q, %s" [d.Id] err) ∧
          (resourceUCloudVPCRead client d w).d.Id = d.Id ∧
          (resourceUCloudVPCRead client d w).d = d) := by
  constructor
  · intro hnf
    rw [resourceUCloudVPCRead_notFound client d w err h hnf]
    exact ⟨rfl, rfl, rfl, rfl⟩
  · intro hnf
    rw [resourceUCloudVPCRead_otherError client d w err h hnf]
    exact ⟨rfl, rfl, rfl⟩

/-- Witness for C5: a service that answers not-found, and one that answers another
error, for the record `vpc-1`. -/
theorem resourceUCloudVPCRead_on_describe_error_witness :
    (((constClient (Except.error (Error.notFound "vpc not found")) none).describeVPCById
          (exampleData setA setA []).Id (World.start ()).remote).1 =
        Except.error (Error.notFound "vpc not found") ∧
      ((constClient (Except.error (Error.remote "internal error")) none).describeVPCById
          (exampleData setA setA []).Id (World.start ()).remote).1 =
        Except.error (Error.remote "internal error")) ∧
    ((resourceUCloudVPCRead (constClient (Except.error (Error.notFound "vpc not found")) none)
          (exampleData setA setA []) (World.start ())).err = none ∧
        (resourceUCloudVPCRead (constClient (Except.error (Error.notFound "vpc not found")) none)
          (exampleData setA setA []) (World.start ())).d.Id = "") ∧
      ((resourceUCloudVPCRead (constClient (Except.error (Error.remote "internal error")) none)
          (exampleData setA setA []) (World.start ())).err =
          some (Error.errorfWrap "error on reading vpc %q, %s" ["vpc-1"]
            (Error.remote "internal error")) ∧
        (resourceUCloudVPCRead (constClient (Except.error (Error.remote "internal error")) none)
          (exampleData setA setA []) (World.start ())).d.Id = "vpc-1") :=
  ⟨⟨rfl, rfl⟩, ⟨((resourceUCloudVPCRead_on_describe_error
        (constClient (Except.error (Error.notFound "vpc not found")) none)
        (exampleData setA setA []) (World.start ()) (Error.notFound "vpc not found") rfl).1 rfl).1,
      ((resourceUCloudVPCRead_on_describe_error
        (constClient (Except.error (Error.notFound "vpc not found")) none)
        (exampleData setA setA []) (World.start ()) (Error.notFound "vpc not found") rfl).1
          rfl).2.1⟩,
    ⟨((resourceUCloudVPCRead_on_describe_error
        (constClient (Except.error (Error.remote "internal error")) none)
        (exampleData setA setA []) (World.start ()) (Error.remote "internal error") rfl).2 rfl).1,
      ((resourceUCloudVPCRead_on_describe_error
        (constClient (Except.error (Error.remote "internal error")) none)
        (exampleData setA setA []) (World.start ()) (Error.remote "internal error") rfl).2
          rfl).2.1⟩⟩

/-! ### The poller configuration -/

/-- C8: the refresh function of the poller `vpcWaitForState` builds maps each
describe-by-id outcome to one result: not-found gives no value, state "pending" and
no error; a successful read gives the record, state "initialized" and no error; any
other error gives no value, no state and that error. The poller has "pending" as its
only pending state and "initialized" as its only target state. -/
theorem vpcWaitForState_refresh {σ : Type} (client : UCloudClient σ) (id : String)
    (w : World σ) :
    ((vpcWaitForState client id).Refresh w).1 =
        (match (client.describeVPCById id w.remote).1 with
          | Except.error err =>
            if client.isNotFoundError err then (none, "pending", none) else (none, "", some err)
          | Except.ok v => (some v, "initialized", none)) ∧
      (vpcWaitForState client id).Pending = ["pending"] ∧
      (vpcWaitForState client id).Target = ["initialized"] := by
  refine ⟨?_, rfl, rfl⟩
  simp only [vpcWaitForState, World.call]
  cases hd : (client.describeVPCById id w.remote).1 with
  | error err =>
    by_cases hnf : client.isNotFoundError err = true
    · simp [hnf, statusPending]
    · simp [hnf]
  | ok v => simp [statusInitialized]

/-! ### The poller run -/

theorem vpc_waitLoop_succ {σ : Type} (client : UCloudClient σ) (id : String)
    (c fuel tick : Nat) (ls : String) (w : World σ) :
    (vpcWaitForState client id).waitLoop c (fuel + 1) tick ls w =
      match (client.describeVPCById id w.remote).1 with
      | Except.ok v =>
        ((some v, none), (w.call (Call.describeVPCById id) (client.describeVPCById id)).2)
      | Except.error err =>
        if client.isNotFoundError err then
          if tick + 1 > c then
            ((none, some (Error.waitNotFound (tick + 1))),
              (w.call (Call.describeVPCById id) (client.describeVPCById id)).2)
          else
            (vpcWaitForState client id).waitLoop c fuel (tick + 1) "pending"
              (w.call (Call.describeVPCById id) (client.describeVPCById id)).2
        else
          ((none, some err), (w.call (Call.describeVPCById id) (client.describeVPCById id)).2) := by
  rw [resource.StateChangeConf.waitLoop]
  cases hd : (client.describeVPCById id w.remote).1 with
  | error err =>
    by_cases hnf : client.isNotFoundError err = true
    · simp [vpcWaitForState, World.call, hd, hnf, statusPending]
    · simp [vpcWaitForState, World.call, hd, hnf]
  | ok v => simp [vpcWaitForState, World.call, hd, statusInitialized, statusPending]

theorem vpc_waitLoop_calls {σ : Type} (client : UCloudClient σ) (id : String) (c fuel : Nat) :
    ∀ (tick : Nat) (ls : String) (w : World σ),
      ∃ rest, ((vpcWaitForState client id).waitLoop c fuel tick ls w).2.calls = w.calls ++ rest := by
  induction fuel with
  | zero =>
    intro tick ls w
    exact ⟨[], by simp [resource.StateChangeConf.waitLoop]⟩
  | succ n ih =>
    intro tick ls w
    rw [vpc_waitLoop_succ]
    cases hd : (client.describeVPCById id w.remote).1 with
    | ok v => exact ⟨[Call.describeVPCById id], by simp [World.call]⟩
    | error err =>
      by_cases hnf : client.isNotFoundError err = true
      · by_cases ht : tick + 1 > c
        · exact ⟨[Call.describeVPCById id], by simp [World.call, hnf, ht]⟩
        · obtain ⟨rest, hrest⟩ := ih (tick + 1) "pending"
            (w.call (Call.describeVPCById id) (client.describeVPCById id)).2
          refine ⟨Call.describeVPCById id :: rest, ?_⟩
          simp only [hnf, ht, if_true, if_false]
          rw [hrest]
          simp [World.call]
      · exact ⟨[Call.describeVPCById id], by simp [World.call, hnf]⟩

/-! ### Create -/

/-- C10: the first call `resourceUCloudVPCCreate` issues is `CreateVPC` with a request
whose `Network` holds the members of `cidr_blocks`, whose `Name` is the configured
name when one is set and otherwise a generated name that starts with "tf-vpc-",
whose `Tag` is the configured tag when one is set and otherwise the default tag, and
whose `Remark` is set exactly when a remark is configured. -/
theorem resourceUCloudVPCCreate_request_fields {σ : Type} (client : UCloudClient σ)
    (stamp : String) (fuel : Nat) (d : ResourceData) (w : World σ) :
    ∃ (req : CreateVPCRequest) (rest : List Call),
      (resourceUCloudVPCCreate client stamp fuel d w).issued w = Call.CreateVPC req :: rest ∧
        req.Network = schemaSetToStringSlice d.GetCidrBlocks ∧
        req.Network.Perm d.GetCidrBlocks.members ∧
        req.Name =
          some (if (d.GetOk "name").2 then (d.GetOk "name").1
            else resource.PrefixedUniqueId "tf-vpc-" stamp) ∧
        "tf-vpc-".data <+: (resource.PrefixedUniqueId "tf-vpc-" stamp).data ∧
        req.Tag = some (if (d.GetOk "tag").2 then (d.GetOk "tag").1 else client.defaultTag) ∧
        req.Remark = (if (d.GetOk "remark").2 then some (d.GetOk "remark").1 else none) := by
  refine ⟨resourceUCloudVPCCreate.request client stamp d, ?_⟩
  have hcalls : ∃ rest, (resourceUCloudVPCCreate client stamp fuel d w).issued w =
      Call.CreateVPC (resourceUCloudVPCCreate.request client stamp d) :: rest := by
    unfold Outcome.issued resourceUCloudVPCCreate
    cases hc : (client.CreateVPC (resourceUCloudVPCCreate.request client stamp d) w.remote).1 with
    | error err => exact ⟨[], by simp [World.call, hc]⟩
    | ok resp =>
      simp only [World.call, hc]
      obtain ⟨rest, hrest⟩ := vpc_waitLoop_calls client (d.SetId resp.VPCId).Id
        (if (vpcWaitForState client (d.SetId resp.VPCId).Id).NotFoundChecks = 0 then 20
          else (vpcWaitForState client (d.SetId resp.VPCId).Id).NotFoundChecks) fuel 0 ""
        { remote := (client.CreateVPC (resourceUCloudVPCCreate.request client stamp d) w.remote).2,
          calls := w.calls ++ [Call.CreateVPC (resourceUCloudVPCCreate.request client stamp d)] }
      unfold resource.StateChangeConf.WaitForState
      split
      · next h =>
        refine ⟨rest, ?_⟩
        have := congrArg (fun x => x.2.calls) h
        simp only at this
        rw [this] at hrest
        simp [hrest]
      · next h =>
        refine ⟨rest ++ [Call.describeVPCById (d.SetId resp.VPCId).Id], ?_⟩
        have := congrArg (fun x => x.2.calls) h
        simp only at this
        rw [this] at hrest
        simp [resourceUCloudVPCRead_calls, hrest]
  obtain ⟨rest, hrest⟩ := hcalls
  refine ⟨rest, hrest, ?_, ?_, ?_, ?_, ?_, ?_⟩
  · unfold resourceUCloudVPCCreate.request
    split <;> split <;> split <;> rfl
  · have : (resourceUCloudVPCCreate.request client stamp d).Network =
        schemaSetToStringSlice d.GetCidrBlocks := by
      unfold resourceUCloudVPCCreate.request
      split <;> split <;> split <;> rfl
    rw [this]
    exact Set.List_perm _
  · unfold resourceUCloudVPCCreate.request
    split <;> split <;> split <;> simp_all
  · unfold resource.PrefixedUniqueId
    rw [String.data_append]
    exact List.prefix_append _ _
  · unfold resourceUCloudVPCCreate.request
    split <;> split <;> split <;> simp_all
  · unfold resourceUCloudVPCCreate.request
    split <;> split <;> split <;> simp_all

/-! ### Delete -/

theorem attempt_deleteError {σ : Type} (client : UCloudClient σ) (d : ResourceData)
    (w : World σ) (err : Error)
    (h : (client.DeleteVPC { VPCId := some d.Id } w.remote).1 = some err) :
    resourceUCloudVPCDelete.attempt client d { VPCId := some d.Id } w =
      (some (resource.NonRetryableError
          (Error.errorfWrap "error on deleting vpc %q, %s" [d.Id] err)),
        { remote := (client.DeleteVPC { VPCId := some d.Id } w.remote).2,
          calls := w.calls ++ [Call.DeleteVPC { VPCId := some d.Id }] }) := by
  simp only [resourceUCloudVPCDelete.attempt, World.call, h]

theorem attempt_notFound {σ : Type} (client : UCloudClient σ) (d : ResourceData)
    (w : World σ) (err : Error)
    (h : (client.DeleteVPC { VPCId := some d.Id } w.remote).1 = none)
    (hd : (client.describeVPCById d.Id
      (client.DeleteVPC { VPCId := some d.Id } w.remote).2).1 = Except.error err)
    (hnf : client.isNotFoundError err = true) :
    resourceUCloudVPCDelete.attempt client d { VPCId := some d.Id } w =
      (none,
        { remote := (client.describeVPCById d.Id
            (client.DeleteVPC { VPCId := some d.Id } w.remote).2).2,
          calls := w.calls ++ [Call.DeleteVPC { VPCId := some d.Id }] ++
            [Call.describeVPCById d.Id] }) := by
  simp only [resourceUCloudVPCDelete.attempt, World.call, h, hd, hnf, if_true]

theorem attempt_otherError {σ : Type} (client : UCloudClient σ) (d : ResourceData)
    (w : World σ) (err : Error)
    (h : (client.DeleteVPC { VPCId := some d.Id } w.remote).1 = none)
    (hd : (client.describeVPCById d.Id
      (client.DeleteVPC { VPCId := some d.Id } w.remote).2).1 = Except.error err)
    (hnf : client.isNotFoundError err = false) :
    resourceUCloudVPCDelete.attempt client d { VPCId := some d.Id } w =
      (some (resource.NonRetryableError
          (Error.errorfWrap "error on reading vpc when deleting %q, %s" [d.Id] err)),
        { remote := (client.describeVPCById d.Id
            (client.DeleteVPC { VPCId := some d.Id } w.remote).2).2,
          calls := w.calls ++ [Call.DeleteVPC { VPCId := some d.Id }] ++
            [Call.describeVPCById d.Id] }) := by
  simp [resourceUCloudVPCDelete.attempt, World.call, h, hd, hnf]

theorem attempt_present {σ : Type} (client : UCloudClient σ) (d : ResourceData)
    (w : World σ) (v : VPCInfo)
    (h : (client.DeleteVPC { VPCId := some d.Id } w.remote).1 = none)
    (hd : (client.describeVPCById d.Id
      (client.DeleteVPC { VPCId := some d.Id } w.remote).2).1 = Except.ok v) :
    resourceUCloudVPCDelete.attempt client d { VPCId := some d.Id } w =
      (some (resource.RetryableError
          (Error.errorf "the specified vpc %q has not been deleted due to unknown error" [d.Id])),
        { remote := (client.describeVPCById d.Id
            (client.DeleteVPC { VPCId := some d.Id } w.remote).2).2,
          calls := w.calls ++ [Call.DeleteVPC { VPCId := some d.Id }] ++
            [Call.describeVPCById d.Id] }) := by
  simp only [resourceUCloudVPCDelete.attempt, World.call, h, hd]

theorem attempt_calls {σ : Type} (client : UCloudClient σ) (d : ResourceData) (w : World σ) :
    ∃ rest, (resourceUCloudVPCDelete.attempt client d { VPCId := some d.Id } w).2.calls =
      w.calls ++ Call.DeleteVPC { VPCId := some d.Id } :: rest := by
  cases h : (client.DeleteVPC { VPCId := some d.Id } w.remote).1 with
  | some err => exact ⟨[], by rw [attempt_deleteError client d w err h]⟩
  | none =>
    cases hd : (client.describeVPCById d.Id
        (client.DeleteVPC { VPCId := some d.Id } w.remote).2).1 with
    | ok v => exact ⟨[Call.describeVPCById d.Id], by rw [attempt_present client d w v h hd]; simp⟩
    | error err =>
      by_cases hnf : client.isNotFoundError err = true
      · exact ⟨[Call.describeVPCById d.Id], by rw [attempt_notFound client d w err h hd hnf]; simp⟩
      · exact ⟨[Call.describeVPCById d.Id], by
          rw [attempt_otherError client d w err h hd (by simpa using hnf)]; simp⟩

theorem attempt_nil_iff {σ : Type} (client : UCloudClient σ) (d : ResourceData) (w : World σ) :
    (resourceUCloudVPCDelete.attempt client d { VPCId := some d.Id } w).1 = none ↔
      (client.DeleteVPC { VPCId := some d.Id } w.remote).1 = none ∧
        ∃ err, (client.describeVPCById d.Id
            (client.DeleteVPC { VPCId := some d.Id } w.remote).2).1 = Except.error err ∧
          client.isNotFoundError err = true := by
  cases h : (client.DeleteVPC { VPCId := some d.Id } w.remote).1 with
  | some err => rw [attempt_deleteError client d w err h]; simp
  | none =>
    cases hd : (client.describeVPCById d.Id
        (client.DeleteVPC { VPCId := some d.Id } w.remote).2).1 with
    | ok v => rw [attempt_present client d w v h hd]; simp
    | error err =>
      by_cases hnf : client.isNotFoundError err = true
      · rw [attempt_notFound client d w err h hd hnf]; simp [hnf]
      · rw [attempt_otherError client d w err h hd (by simpa using hnf)]; simp [hnf]

theorem delete_of_nil {σ : Type} (client : UCloudClient σ) (fuel : Nat) (d : ResourceData)
    (w w1 : World σ)
    (h : resourceUCloudVPCDelete.attempt client d { VPCId := some d.Id } w = (none, w1)) :
    resourceUCloudVPCDelete client (fuel + 1) d w = { err := none, d := d, world := w1 } := by
  unfold resourceUCloudVPCDelete
  simp only [Retry_nil _ _ fuel w w1 h]

theorem delete_of_terminal {σ : Type} (client : UCloudClient σ) (fuel : Nat) (d : ResourceData)
    (w w1 : World σ) (e : Error)
    (h : resourceUCloudVPCDelete.attempt client d { VPCId := some d.Id } w =
      (some (resource.NonRetryableError e), w1)) :
    resourceUCloudVPCDelete client (fuel + 1) d w = { err := some e, d := d, world := w1 } := by
  unfold resourceUCloudVPCDelete
  simp only [Retry_terminal _ _ fuel w w1 _ h rfl, resource.NonRetryableError]

theorem delete_of_retryable_last {σ : Type} (client : UCloudClient σ) (d : ResourceData)
    (w w1 : World σ) (e : Error)
    (h : resourceUCloudVPCDelete.attempt client d { VPCId := some d.Id } w =
      (some (resource.RetryableError e), w1)) :
    resourceUCloudVPCDelete client 1 d w = { err := some e, d := d, world := w1 } := by
  unfold resourceUCloudVPCDelete
  simp only [Retry_last _ _ w w1 _ h rfl, resource.RetryableError]

theorem delete_of_retryable_again {σ : Type} (client : UCloudClient σ) (fuel : Nat)
    (d : ResourceData) (w w1 : World σ) (e : Error)
    (h : resourceUCloudVPCDelete.attempt client d { VPCId := some d.Id } w =
      (some (resource.RetryableError e), w1)) :
    resourceUCloudVPCDelete client (fuel + 2) d w = resourceUCloudVPCDelete client (fuel + 1) d w1 := by
  unfold resourceUCloudVPCDelete
  simp only [Retry_again _ _ fuel w w1 _ h rfl]

theorem delete_nil_inv {σ : Type} (client : UCloudClient σ) (fuel : Nat) (d : ResourceData)
    (w : World σ) (h : (resourceUCloudVPCDelete client (fuel + 1) d w).err = none) :
    ∃ w0, resourceUCloudVPCDelete.attempt client d { VPCId := some d.Id } w0 =
      (none, (resourceUCloudVPCDelete client (fuel + 1) d w).world) := by
  unfold resourceUCloudVPCDelete at h ⊢
  rcases hr : resource.Retry (5 * time.Minute)
    (resourceUCloudVPCDelete.attempt client d { VPCId := some d.Id }) (fuel + 1) w with ⟨e, w1⟩
  simp only [hr] at h ⊢
  subst h
  exact Retry_nil_inv _ _ fuel w w1 hr

/-- C6, as stated, fails: with a service that refuses `DeleteVPC` for a record that
does not exist, a first `resourceUCloudVPCDelete` succeeds and leaves the record
absent, and a second one returns an error. -/
theorem resourceUCloudVPCDelete_repeated_fails :
    (resourceUCloudVPCDelete memClient 3 (exampleData setA setA [])
        (World.start ["vpc-1"])).err = none ∧
      recordAbsent memClient "vpc-1"
        (resourceUCloudVPCDelete memClient 3 (exampleData setA setA [])
          (World.start ["vpc-1"])).world.remote = true ∧
      (resourceUCloudVPCDelete memClient 3 (exampleData setA setA [])
          (resourceUCloudVPCDelete memClient 3 (exampleData setA setA [])
            (World.start ["vpc-1"])).world).err =
        some (Error.errorfWrap "error on deleting vpc %q, %s" ["vpc-1"]
          (Error.remote "vpc does not exist")) := by
  decide

/-- C6, amended: when the record is absent at the existence check,
`resourceUCloudVPCDelete` returns no error provided the `DeleteVPC` request it issues
first is answered without error; when that request is answered with an error,
`resourceUCloudVPCDelete` returns that error, wrapped. -/
theorem resourceUCloudVPCDelete_absent {σ : Type} (client : UCloudClient σ) (fuel : Nat)
    (d : ResourceData) (w : World σ)
    (habs : recordAbsent client d.Id (client.DeleteVPC { VPCId := some d.Id } w.remote).2 = true) :
    ((client.DeleteVPC { VPCId := some d.Id } w.remote).1 = none →
        (resourceUCloudVPCDelete client (fuel + 1) d w).err = none) ∧
      (∀ e, (client.DeleteVPC { VPCId := some d.Id } w.remote).1 = some e →
        (resourceUCloudVPCDelete client (fuel + 1) d w).err =
          some (Error.errorfWrap "error on deleting vpc %q, %s" [d.Id] e)) := by
  constructor
  · intro hdel
    unfold recordAbsent at habs
    cases hd : (client.describeVPCById d.Id
        (client.DeleteVPC { VPCId := some d.Id } w.remote).2).1 with
    | ok v => simp [hd] at habs
    | error err =>
      simp only [hd] at habs
      rw [delete_of_nil client fuel d w _ (attempt_notFound client d w err hdel hd habs)]
  · intro e hdel
    rw [delete_of_terminal client fuel d w _ _ (attempt_deleteError client d w e hdel)]

/-- Witness for C6 (amended): the record `vpc-1` is absent; one service accepts the
`DeleteVPC` request, the other refuses it. -/
theorem resourceUCloudVPCDelete_absent_witness :
    recordAbsent (constClient (Except.error (Error.notFound "vpc not found")) none)
        (exampleData setA setA []).Id () = true ∧
      (resourceUCloudVPCDelete (constClient (Except.error (Error.notFound "vpc not found")) none)
        1 (exampleData setA setA []) (World.start ())).err = none ∧
      recordAbsent memClient (exampleData setA setA []).Id [] = true ∧
      (resourceUCloudVPCDelete memClient 1 (exampleData setA setA []) (World.start [])).err =
        some (Error.errorfWrap "error on deleting vpc %q, %s" ["vpc-1"]
          (Error.remote "vpc does not exist")) :=
  ⟨by decide,
    (resourceUCloudVPCDelete_absent
      (constClient (Except.error (Error.notFound "vpc not found")) none) 0
      (exampleData setA setA []) (World.start ()) (by decide)).1 rfl,
    by decide,
    (resourceUCloudVPCDelete_absent memClient 0 (exampleData setA setA []) (World.start [])
      (by decide)).2 (Error.remote "vpc does not exist") (by decide)⟩

/-- C7, as stated, fails: the `DeleteVPC` request is issued by every attempt, not once
before the attempts. With a service that still describes the record after the first
request, `resourceUCloudVPCDelete` issues `DeleteVPC`, describe, `DeleteVPC`, describe. -/
theorem resourceUCloudVPCDelete_reissues_delete :
    (resourceUCloudVPCDelete slowClient 3 (exampleData setA setA []) (World.start 0)).issued
        (World.start 0) =
      [Call.DeleteVPC { VPCId := some "vpc-1" }, Call.describeVPCById "vpc-1",
       Call.DeleteVPC { VPCId := some "vpc-1" }, Call.describeVPCById "vpc-1"] ∧
      (resourceUCloudVPCDelete slowClient 3 (exampleData setA setA []) (World.start 0)).err =
        none := by
  decide

/-- C7, amended: every attempt of `resourceUCloudVPCDelete` issues the `DeleteVPC`
request and then re-checks existence, with this outcome per attempt: an error from
`DeleteVPC` is a terminal failure and no existence check follows it; a not-found
result of the existence check is success; any other error of the existence check is a
terminal failure; a record that is still present is a retryable failure (the last
allowed attempt reports it, an earlier one is followed by a further attempt); and the
operation as a whole returns no error only when an attempt confirmed the record
absent. -/
theorem resourceUCloudVPCDelete_attempt_outcomes {σ : Type} (client : UCloudClient σ)
    (fuel : Nat) (d : ResourceData) (w : World σ) :
    (∃ rest, (resourceUCloudVPCDelete.attempt client d { VPCId := some d.Id } w).2.calls =
        w.calls ++ Call.DeleteVPC { VPCId := some d.Id } :: rest) ∧
      (∀ err, (client.DeleteVPC { VPCId := some d.Id } w.remote).1 = some err →
        (resourceUCloudVPCDelete.attempt client d { VPCId := some d.Id } w).1 =
            some (resource.NonRetryableError
              (Error.errorfWrap "error on deleting vpc %q, %s" [d.Id] err)) ∧
          (resourceUCloudVPCDelete.attempt client d { VPCId := some d.Id } w).2.calls =
            w.calls ++ [Call.DeleteVPC { VPCId := some d.Id }] ∧
          (resourceUCloudVPCDelete client (fuel + 1) d w).err =
            some (Error.errorfWrap "error on deleting vpc %q, %s" [d.Id] err)) ∧
      (∀ err, (client.DeleteVPC { VPCId := some d.Id } w.remote).1 = none →
        (client.describeVPCById d.Id
          (client.DeleteVPC { VPCId := some d.Id } w.remote).2).1 = Except.error err →
        client.isNotFoundError err = true →
        (resourceUCloudVPCDelete.attempt client d { VPCId := some d.Id } w).1 = none ∧
          (resourceUCloudVPCDelete client (fuel + 1) d w).err = none) ∧
      (∀ err, (client.DeleteVPC { VPCId := some d.Id } w.remote).1 = none →
        (client.describeVPCById d.Id
          (client.DeleteVPC { VPCId := some d.Id } w.remote).2).1 = Except.error err →
        client.isNotFoundError err = false →
        (resourceUCloudVPCDelete.attempt client d { VPCId := some d.Id } w).1 =
            some (resource.NonRetryableError
              (Error.errorfWrap "error on reading vpc when deleting %q, %s" [d.Id] err)) ∧
          (resourceUCloudVPCDelete client (fuel + 1) d w).err =
            some (Error.errorfWrap "error on reading vpc when deleting %q, %s" [d.Id] err)) ∧
      (∀ v, (client.DeleteVPC { VPCId := some d.Id } w.remote).1 = none →
        (client.describeVPCById d.Id
          (client.DeleteVPC { VPCId := some d.Id } w.remote).2).1 = Except.ok v →
        (resourceUCloudVPCDelete.attempt client d { VPCId := some d.Id } w).1 =
            some (resource.RetryableError
              (Error.errorf "the specified vpc %q has not been deleted due to unknown error"
                [d.Id])) ∧
          (resourceUCloudVPCDelete client 1 d w).err =
            some (Error.errorf "the specified vpc %q has not been deleted due to unknown error"
              [d.Id]) ∧
          resourceUCloudVPCDelete client (fuel + 2) d w =
            resourceUCloudVPCDelete client (fuel + 1) d
              (resourceUCloudVPCDelete.attempt client d { VPCId := some d.Id } w).2) ∧
      ((resourceUCloudVPCDelete client (fuel + 1) d w).err = none →
        ∃ w0 err,
          (client.DeleteVPC { VPCId := some d.Id } w0.remote).1 = none ∧
            (client.describeVPCById d.Id
              (client.DeleteVPC { VPCId := some d.Id } w0.remote).2).1 = Except.error err ∧
            client.isNotFoundError err = true ∧
            resourceUCloudVPCDelete.attempt client d { VPCId := some d.Id } w0 =
              (none, (resourceUCloudVPCDelete client (fuel + 1) d w).world)) := by
  refine ⟨attempt_calls client d w, ?_, ?_, ?_, ?_, ?_⟩
  · intro err h
    have ha := attempt_deleteError client d w err h
    refine ⟨by rw [ha], by rw [ha], ?_⟩
    rw [delete_of_terminal client fuel d w _ _ ha]
  · intro err h hd hnf
    have ha := attempt_notFound client d w err h hd hnf
    refine ⟨by rw [ha], ?_⟩
    rw [delete_of_nil client fuel d w _ ha]
  · intro err h hd hnf
    have ha := attempt_otherError client d w err h hd hnf
    refine ⟨by rw [ha], ?_⟩
    rw [delete_of_terminal client fuel d w _ _ ha]
  · intro v h hd
    have ha := attempt_present client d w v h hd
    refine ⟨by rw [ha], ?_, ?_⟩
    · rw [delete_of_retryable_last client d w _ _ ha]
    · rw [delete_of_retryable_again client fuel d w _ _ ha, ha]
  · intro h
    obtain ⟨w0, hw0⟩ := delete_nil_inv client fuel d w h
    have hnil : (resourceUCloudVPCDelete.attempt client d { VPCId := some d.Id } w0).1 = none := by
      rw [hw0]
    obtain ⟨hdel, err, hd, hnf⟩ := (attempt_nil_iff client d w0).1 hnil
    exact ⟨w0, err, hdel, hd, hnf, hw0⟩

/-- Witness for C7 (amended): the asynchronous service, where the first attempt finds
the record still present and the second confirms it absent; a service that refuses
`DeleteVPC`; and a service whose existence check fails with another error. -/
theorem resourceUCloudVPCDelete_attempt_outcomes_witness :
    ((resourceUCloudVPCDelete.attempt slowClient (exampleData setA setA [])
          { VPCId := some "vpc-1" } (World.start 0)).1 =
        some (resource.RetryableError
          (Error.errorf "the specified vpc %q has not been deleted due to unknown error"
            ["vpc-1"])) ∧
      (resourceUCloudVPCDelete slowClient 1 (exampleData setA setA []) (World.start 0)).err =
        some (Error.errorf "the specified vpc %q has not been deleted due to unknown error"
          ["vpc-1"])) ∧
      ((resourceUCloudVPCDelete.attempt slowClient (exampleData setA setA [])
          { VPCId := some "vpc-1" } { remote := 1, calls := [] }).1 = none ∧
        (resourceUCloudVPCDelete slowClient 1 (exampleData setA setA [])
          { remote := 1, calls := [] }).err = none) ∧
      (resourceUCloudVPCDelete memClient 1 (exampleData setA setA []) (World.start [])).err =
        some (Error.errorfWrap "error on deleting vpc %q, %s" ["vpc-1"]
          (Error.remote "vpc does not exist")) ∧
      (resourceUCloudVPCDelete (constClient (Except.error (Error.remote "internal error")) none)
          1 (exampleData setA setA []) (World.start ())).err =
        some (Error.errorfWrap "error on reading vpc when deleting %q, %s" ["vpc-1"]
          (Error.remote "internal error")) :=
  ⟨⟨((resourceUCloudVPCDelete_attempt_outcomes slowClient 0 (exampleData setA setA [])
        (World.start 0)).2.2.2.2.1 exampleVPC rfl rfl).1,
      ((resourceUCloudVPCDelete_attempt_outcomes slowClient 0 (exampleData setA setA [])
        (World.start 0)).2.2.2.2.1 exampleVPC rfl rfl).2.1⟩,
    (resourceUCloudVPCDelete_attempt_outcomes slowClient 0 (exampleData setA setA [])
      { remote := 1, calls := [] }).2.2.1 (Error.notFound "vpc not found") rfl rfl rfl,
    ((resourceUCloudVPCDelete_attempt_outcomes memClient 0 (exampleData setA setA [])
      (World.start [])).2.1 (Error.remote "vpc does not exist") (by decide)).2.2,
    ((resourceUCloudVPCDelete_attempt_outcomes
      (constClient (Except.error (Error.remote "internal error")) none) 0
      (exampleData setA setA []) (World.start ())).2.2.2.1 (Error.remote "internal error")
        rfl rfl rfl).2⟩

/-! ### The convergence poller -/

/-- C9, as stated, fails: with a service whose describe-by-id fails with an error
other than not-found, the run of the poller leaves "pending" for a failure that
carries that read error: it is neither "initialized" nor a timeout. -/
theorem vpcWaitForState_read_error_run :
    ((vpcWaitForState (constClient (Except.error (Error.remote "internal error")) none)
        "vpc-1").WaitForState 5 (World.start ())).1 =
      (none, some (Error.remote "internal error")) := by
  decide

theorem vpc_waitLoop_outcomes {σ : Type} (client : UCloudClient σ) (id : String) (fuel : Nat) :
    ∀ (tick : Nat) (ls : String) (w : World σ),
      (∃ (v : VPCInfo) (w0 : World σ), (client.describeVPCById id w0.remote).1 = Except.ok v ∧
          (vpcWaitForState client id).waitLoop 20 fuel tick ls w =
            ((some v, none), (w0.call (Call.describeVPCById id) (client.describeVPCById id)).2)) ∨
        (∃ st, ((vpcWaitForState client id).waitLoop 20 fuel tick ls w).1 =
          (none, some (Error.waitTimeout st))) ∨
        (∃ (err : Error) (w0 : World σ), (client.describeVPCById id w0.remote).1 = Except.error err ∧
          client.isNotFoundError err = false ∧
          ((vpcWaitForState client id).waitLoop 20 fuel tick ls w).1 = (none, some err)) ∨
        (∃ k, 20 < k ∧ ((vpcWaitForState client id).waitLoop 20 fuel tick ls w).1 =
          (none, some (Error.waitNotFound k))) := by
  induction fuel with
  | zero =>
    intro tick ls w
    exact Or.inr (Or.inl ⟨ls, by simp [resource.StateChangeConf.waitLoop]⟩)
  | succ n ih =>
    intro tick ls w
    rw [vpc_waitLoop_succ]
    cases hd : (client.describeVPCById id w.remote).1 with
    | ok v => exact Or.inl ⟨v, w, hd, rfl⟩
    | error err =>
      by_cases hnf : client.isNotFoundError err = true
      · by_cases ht : tick + 1 > 20
        · exact Or.inr (Or.inr (Or.inr ⟨tick + 1, ht, by simp [hnf, ht]⟩))
        · simp only [hnf, ht, if_true, if_false]
          exact ih (tick + 1) "pending" _
      · exact Or.inr (Or.inr (Or.inl ⟨err, w, hd, by simpa using hnf, by simp [hnf]⟩))

/-- C9, amended: a run of the convergence poller for a VPC leaves "pending" in one of
four ways only: to "initialized" on a successful read, to a timeout failure, to a
failure carrying a read error other than not-found, or to the framework's failure
after more than 20 consecutive not-found reads. Once a read succeeds the run ends in
"initialized" with that record at once, whatever number of refreshes remained, so no
later read changes the outcome. -/
theorem vpcWaitForState_run_outcomes {σ : Type} (client : UCloudClient σ) (id : String)
    (fuel : Nat) (w : World σ) :
    (∀ (v : VPCInfo) (c tick : Nat) (ls : String),
        (client.describeVPCById id w.remote).1 = Except.ok v →
        (vpcWaitForState client id).waitLoop c (fuel + 1) tick ls w =
          ((some v, none), (w.call (Call.describeVPCById id) (client.describeVPCById id)).2)) ∧
      ((∃ (v : VPCInfo) (w0 : World σ), (client.describeVPCById id w0.remote).1 = Except.ok v ∧
          (vpcWaitForState client id).WaitForState fuel w =
            ((some v, none), (w0.call (Call.describeVPCById id) (client.describeVPCById id)).2)) ∨
        (∃ st, ((vpcWaitForState client id).WaitForState fuel w).1 =
          (none, some (Error.waitTimeout st))) ∨
        (∃ (err : Error) (w0 : World σ), (client.describeVPCById id w0.remote).1 = Except.error err ∧
          client.isNotFoundError err = false ∧
          ((vpcWaitForState client id).WaitForState fuel w).1 = (none, some err)) ∨
        (∃ k, 20 < k ∧ ((vpcWaitForState client id).WaitForState fuel w).1 =
          (none, some (Error.waitNotFound k)))) := by
  constructor
  · intro v c tick ls hd
    rw [vpc_waitLoop_succ]
    simp only [hd]
  · have h := vpc_waitLoop_outcomes client id fuel 0 "" w
    unfold resource.StateChangeConf.WaitForState
    exact h

/-- Witness for C9 (amended): a service that describes the record; the run ends at
the first read. -/
theorem vpcWaitForState_run_outcomes_witness :
    (constClient (Except.ok exampleVPC) none).describeVPCById "vpc-1" (World.start ()).remote =
        (Except.ok exampleVPC, ()) ∧
      ((vpcWaitForState (constClient (Except.ok exampleVPC) none) "vpc-1").waitLoop 20 3 0 ""
          (World.start ())).1 = (some exampleVPC, none) ∧
      ((vpcWaitForState (constClient (Except.ok exampleVPC) none) "vpc-1").waitLoop 20 3 0 ""
          (World.start ())).2.calls = [Call.describeVPCById "vpc-1"] :=
  ⟨rfl,
    congrArg Prod.fst ((vpcWaitForState_run_outcomes (constClient (Except.ok exampleVPC) none)
      "vpc-1" 2 (World.start ())).1 exampleVPC 20 0 "" rfl),
    congrArg (fun r : (Option VPCInfo × Option Error) × World Unit => r.2.calls)
      ((vpcWaitForState_run_outcomes (constClient (Except.ok exampleVPC) none)
        "vpc-1" 2 (World.start ())).1 exampleVPC 20 0 "" rfl)⟩

end UCloud
